import Mathlib

/-!
# Trace-identity model of package `gintrace` (src/bid.go)

A shallow embedding of the trace context `BadaCtx`: validity, origin
construction, chaining, header (de)serialisation, request-scoped storage and
the middleware `WithBidTrace`.

Conventions of the embedding

* A Go pointer `*BadaCtx` is an `Option BadaCtx`; `none` is the nil pointer.
* A function that receives a pointer or a map also returns the state of the
  pointee or map after the call, so that frame properties can be stated.
* A Go panic is the `error` side of `Except Panic`.
* `http.Header` and `context.Context` are the standard library types; they are
  modelled here as the non-nil values of those types (a map from canonical
  header names to value lists, and a chain of `context.WithValue` layers).
* `primitive.NewObjectID` reads the clock, a process-unique value and a
  counter; it is modelled as an oracle, a stream of object ids with a cursor.
-/

namespace GinTrace

/-! ## Standard-library values used by bid.go -/

/-- A Go panic, with the reason it was raised. -/
inductive Panic where
  | nilDereference
  | nilContext
  | message (msg : String)

/-- A Go `error` value built by `errors.New`. -/
inductive GoError where
  | errorString (msg : String)
deriving DecidableEq

/-- Line 27: `ErrInvalidBadaCtx = errors.New("invalid BadaCtx")`. -/
def ErrInvalidBadaCtx : GoError := GoError.errorString "invalid BadaCtx"

/-- Line 21. -/
def XCurrTid : String := "X-Curr-Tid"

/-- Line 22. -/
def XPrevTid : String := "X-Prev-Tid"

/-- Line 23. -/
def XEntryTid : String := "X-Entry-Tid"

/-- An `http.Header`: the Go map `map[string][]string`, as the partial function
from keys to value lists (`none`: the key is absent). The three header names of
this package are already in canonical MIME form, so `Get` and `Set`, which
canonicalise their key argument, address the map entry of that very name. -/
structure Header where
  entries : String → Option (List String)

/-- The empty header set. -/
def Header.empty : Header := ⟨fun _ => none⟩

/-- `h.Get(key)`: the first value stored under the key, or the empty string
when the key is absent or holds no value. -/
def Header.Get (h : Header) (key : String) : String :=
  match h.entries key with
  | some (v :: _) => v
  | _ => ""

/-- `h.Set(key, value)`: the entry of the key becomes the one-element list. -/
def Header.Set (h : Header) (key value : String) : Header :=
  ⟨fun k => if k = key then some [value] else h.entries k⟩

/-- The struct `BadaCtx` (lines 31-35). -/
structure BadaCtx where
  PrevTid : String
  CurrTid : String
  EntryTid : String
deriving DecidableEq

/-- The zero value of the struct: what a named result holds before assignment. -/
def BadaCtx.zero : BadaCtx := ⟨"", "", ""⟩

/-- A key of a context: a value of this package's private type `ctxKey`
(an integer type), or a key of any other type. -/
inductive Key where
  | ctxKey (n : Int)
  | foreign (tag : Nat)
deriving DecidableEq

/-- Line 19: `ctxKeyBadaCtx ctxKey = iota`, the first constant of its block. -/
def ctxKeyBadaCtx : Key := Key.ctxKey 0

/-- A value of the empty interface: the nil interface, a `*BadaCtx` (possibly a
nil pointer), or a value of any other dynamic type. -/
inductive Any where
  | nil
  | badaCtxPtr (p : Option BadaCtx)
  | foreign (tag : Nat)

/-- A non-nil `context.Context`: the background context, or a parent wrapped by
`context.WithValue`. Cancellation and deadline layers do not answer value
lookups for other keys and are left out. -/
inductive Context where
  | background
  | withValue (parent : Context) (key : Key) (val : Any)

/-- `ctx.Value(key)`: the value of the innermost layer with that key, the nil
interface when no layer has it. -/
def Context.Value : Context → Key → Any
  | Context.background, _ => Any.nil
  | Context.withValue parent k v, key => if k = key then v else parent.Value key

/-- `context.WithValue(parent, key, val)` for a non-nil parent and key. -/
def WithValue (parent : Context) (key : Key) (val : Any) : Context :=
  Context.withValue parent key val

/-! ## The identifier generator -/

/-- Modelled from the spec: the object identifier of the external generator
(`primitive.ObjectID`), "a standard 12-byte, time-embedded, globally unique
object identifier". -/
structure ObjectID where
  bytes : List (Fin 256)
  size : bytes.length = 12

/-- Modelled from the spec: one hexadecimal digit, lower case. -/
def hexDigit (n : Nat) : Char :=
  if n < 10 then Char.ofNat (48 + n) else Char.ofNat (87 + n)

/-- Modelled from the spec: two hexadecimal digits for every byte. -/
def hexEncode : List (Fin 256) → List Char
  | [] => []
  | v :: vs => hexDigit (v.val / 16) :: hexDigit (v.val % 16) :: hexEncode vs

/-- Modelled from the spec: `id.Hex()`, the identifier "rendered as hex". -/
def ObjectID.Hex (id : ObjectID) : String := String.mk (hexEncode id.bytes)

/-- The state of the generator: the object ids it is going to hand out, and
how many it has handed out so far. -/
structure IdGen where
  supply : Nat → ObjectID
  calls : Nat

/-- `primitive.NewObjectID()`: the next object id of the supply. -/
def IdGen.NewObjectID (g : IdGen) : ObjectID × IdGen :=
  (g.supply g.calls, ⟨g.supply, g.calls + 1⟩)

/-! ## bid.go -/

/-- Lines 51-54: `(b *BadaCtx) IsValid()`. -/
def BadaCtx.IsValid (b : Option BadaCtx) : Bool :=
  match b with
  | none => false
  | some v => v.CurrTid != "" && v.EntryTid != ""

/-- Lines 56-68: `(b *BadaCtx) SetHeader(h)`. Returns the header set and the
receiver as they stand after the call; a nil receiver panics at line 57. -/
def BadaCtx.SetHeader (b : Option BadaCtx) (h : Header) : Except Panic (Header × BadaCtx) :=
  match b with
  | none => Except.error Panic.nilDereference
  | some v =>
    let h1 := if v.PrevTid != "" then h.Set XPrevTid v.PrevTid else h
    let h2 := if v.EntryTid == "" then h1.Set XEntryTid v.CurrTid else h1.Set XEntryTid v.EntryTid
    Except.ok (h2.Set XCurrTid v.CurrTid, v)

/-- Lines 70-75: `(b *BadaCtx) EmbedIntoContext(ctx)`. The first component is
the returned context (`none`: nil), the second the returned error. -/
def BadaCtx.EmbedIntoContext (b : Option BadaCtx) (ctx : Context) : Option Context × Option GoError :=
  if !BadaCtx.IsValid b then (none, some ErrInvalidBadaCtx)
  else (some (WithValue ctx ctxKeyBadaCtx (Any.badaCtxPtr b)), none)

/-- Lines 45-49: `GetBadaCtx(ctx)`. The type assertion yields the stored
pointer and true when the value under the key is a `*BadaCtx`, a nil pointer
and false otherwise. -/
def GetBadaCtx (ctx : Context) : Option BadaCtx × Bool :=
  let asserted : Option BadaCtx × Bool :=
    match ctx.Value ctxKeyBadaCtx with
    | Any.badaCtxPtr p => (p, true)
    | _ => (none, false)
  (asserted.1, asserted.2 && BadaCtx.IsValid asserted.1)

/-- Lines 37-43: `MustGetBadaCtx(ctx)`. -/
def MustGetBadaCtx (ctx : Context) : Except Panic (Option BadaCtx) :=
  let r := GetBadaCtx ctx
  if !r.2 then
    Except.error (Panic.message
      "bada context should be inserted into the context, find out why you pass a ctx without it")
  else Except.ok r.1

/-- Lines 77-82: `ExtractBadaCtxFromHeader(h)`. Returns the context read and
the header set as it stands after the call. -/
def ExtractBadaCtxFromHeader (h : Header) : BadaCtx × Header :=
  let b0 := BadaCtx.zero
  let b1 : BadaCtx := ⟨b0.PrevTid, h.Get XCurrTid, b0.EntryTid⟩
  let b2 : BadaCtx := ⟨h.Get XPrevTid, b1.CurrTid, b1.EntryTid⟩
  let b3 : BadaCtx := ⟨b2.PrevTid, b2.CurrTid, h.Get XEntryTid⟩
  (b3, h)

/-- Lines 84-90: `NewBadaCtx()`. `PrevTid` is not named in the literal and
keeps its zero value. -/
def NewBadaCtx (g : IdGen) : BadaCtx × IdGen :=
  let r := g.NewObjectID
  let tid := r.1.Hex
  (⟨"", tid, tid⟩, r.2)

/-- What `ChainBadaCtx` leaves behind: its two results, the parent as it stands
after the call, and the generator. -/
structure ChainResult where
  curr : BadaCtx
  err : Option GoError
  prev : Option BadaCtx
  gen : IdGen

/-- Lines 92-100: `ChainBadaCtx(prev)`. A nil parent is not valid (line 53),
so the fields of the parent are read only from a non-nil pointer. -/
def ChainBadaCtx (prev : Option BadaCtx) (g : IdGen) : ChainResult :=
  let curr := BadaCtx.zero
  match prev with
  | none => ⟨curr, some ErrInvalidBadaCtx, prev, g⟩
  | some p =>
    if !BadaCtx.IsValid (some p) then ⟨curr, some ErrInvalidBadaCtx, some p, g⟩
    else
      let curr1 : BadaCtx := ⟨curr.PrevTid, curr.CurrTid, p.EntryTid⟩
      let curr2 : BadaCtx := ⟨p.CurrTid, curr1.CurrTid, curr1.EntryTid⟩
      let r := g.NewObjectID
      let curr3 : BadaCtx := ⟨curr2.PrevTid, r.1.Hex, curr2.EntryTid⟩
      ⟨curr3, none, some p, r.2⟩

/-- An `*http.Request`, as far as bid.go uses it: its headers and its context
(`Request.Context()` never returns nil). -/
structure Request where
  Header : Header
  ctx : Context

/-- A `*gin.Context`, as far as bid.go uses it. -/
structure GinContext where
  Request : Request

/-- The local state of `WithBidTrace` at line 115: the context `b`, the
generator, and the lines written to the log. -/
structure Derived where
  b : BadaCtx
  gen : IdGen
  log : List String

/-- Lines 104-114 of `WithBidTrace`: the context derived from the inbound
headers. -/
def WithBidTrace.derive (h : Header) (g : IdGen) : Derived :=
  let b := (ExtractBadaCtxFromHeader h).1
  if b.EntryTid == "" then
    let n := NewBadaCtx g
    ⟨n.1, n.2, []⟩
  else
    let r := ChainBadaCtx (some b) g
    match r.err with
    | some _ =>
      let n := NewBadaCtx r.gen
      ⟨n.1, n.2, ["Warning: previous badaCtx is invalid, both curr and entry id should be exist. Now using new badaCtx"]⟩
    | none => ⟨r.curr, r.gen, []⟩

/-- What `WithBidTrace` has done when it calls `c.Next()` at line 120. -/
structure Served where
  c : GinContext
  gen : IdGen
  log : List String

/-- Lines 102-121: `WithBidTrace(c)`, up to the call of `c.Next()`. The error
of `EmbedIntoContext` is dropped (line 117); `Request.WithContext` panics on
the nil context that comes with an error. -/
def WithBidTrace (c : GinContext) (g : IdGen) : Except Panic Served :=
  let ctx := c.Request.ctx
  let d := WithBidTrace.derive c.Request.Header g
  match (BadaCtx.EmbedIntoContext (some d.b) ctx).1 with
  | none => Except.error Panic.nilContext
  | some ctx1 => Except.ok ⟨⟨⟨(ExtractBadaCtxFromHeader c.Request.Header).2, ctx1⟩⟩, d.gen, d.log⟩

/-! ## Sample values -/

/-- A sample object id: twelve bytes of value 7. -/
def sampleId : ObjectID := ⟨List.replicate 12 7, rfl⟩

/-- A sample generator that hands out `sampleId` at every call. -/
def sampleGen : IdGen := ⟨fun _ => sampleId, 0⟩

/-- A sample origin context: ids c and e, no previous id. -/
def sampleOrigin : BadaCtx := ⟨"", "c", "e"⟩

/-- A sample chained context with all three ids. -/
def sampleHop : BadaCtx := ⟨"p", "c", "e"⟩

/-! ## Further sample values -/

/-- A header set that already carries a previous-id header. -/
def staleHeader : Header := Header.empty.Set XPrevTid "stale"

/-- A valid parent whose ids are the identifier `sampleGen` hands out next. -/
def collidingParent : BadaCtx :=
  ⟨"", "070707070707070707070707", "070707070707070707070707"⟩

/-- A valid parent with the short ids of a hand-written request: current and
entry id A. -/
def parentAA : BadaCtx := ⟨"", "A", "A"⟩

/-- Inbound headers of a second hop: current and entry id A, no previous id. -/
def headersAA : Header := (Header.empty.Set XCurrTid "A").Set XEntryTid "A"

/-- Inbound headers with a current and previous id but an empty entry id. -/
def headersNoEntry : Header :=
  ((Header.empty.Set XCurrTid "A").Set XPrevTid "").Set XEntryTid ""

/-- Inbound headers with an entry and previous id but an empty current id. -/
def headersNoCurr : Header :=
  ((Header.empty.Set XCurrTid "").Set XPrevTid "P").Set XEntryTid "E"

/-- A carrier that binds the sample origin context. -/
def sampleCarrier : Context :=
  WithValue Context.background ctxKeyBadaCtx (Any.badaCtxPtr (some sampleOrigin))

/-! ## Auxiliary facts -/

theorem BadaCtx.IsValid_some (v : BadaCtx) :
    BadaCtx.IsValid (some v) = true ↔ v.CurrTid ≠ "" ∧ v.EntryTid ≠ "" := by
  simp [BadaCtx.IsValid]

theorem BadaCtx.IsValid_none : BadaCtx.IsValid none = false := rfl

theorem ObjectID.Hex_ne_empty (id : ObjectID) : id.Hex ≠ "" := by
  obtain ⟨bytes, size⟩ := id
  cases bytes with
  | nil => simp at size
  | cons v vs =>
    intro h
    have h2 := congrArg String.data h
    simp [ObjectID.Hex, hexEncode] at h2

theorem Header.Get_Set_same (h : Header) (k v : String) : (h.Set k v).Get k = v := by
  simp [Header.Get, Header.Set]

theorem Header.Get_Set_other (h : Header) (k j v : String) (hne : j ≠ k) :
    (h.Set k v).Get j = h.Get j := by
  simp [Header.Get, Header.Set, hne]

theorem Header.Get_empty (k : String) : Header.empty.Get k = "" := by
  simp [Header.Get, Header.empty]

theorem XPrevTid_ne_XCurrTid : XPrevTid ≠ XCurrTid := by decide

theorem XEntryTid_ne_XCurrTid : XEntryTid ≠ XCurrTid := by decide

theorem XPrevTid_ne_XEntryTid : XPrevTid ≠ XEntryTid := by decide

theorem NewBadaCtx_IsValid (g : IdGen) : BadaCtx.IsValid (some (NewBadaCtx g).1) = true := by
  rw [BadaCtx.IsValid_some]
  exact ⟨ObjectID.Hex_ne_empty _, ObjectID.Hex_ne_empty _⟩

theorem ChainBadaCtx_of_valid (p : BadaCtx) (g : IdGen) (hv : BadaCtx.IsValid (some p) = true) :
    ChainBadaCtx (some p) g
      = ⟨⟨p.CurrTid, g.NewObjectID.1.Hex, p.EntryTid⟩, none, some p, g.NewObjectID.2⟩ := by
  simp [ChainBadaCtx, hv, BadaCtx.zero]

theorem ChainBadaCtx_of_invalid (prev : Option BadaCtx) (g : IdGen)
    (hv : BadaCtx.IsValid prev = false) :
    ChainBadaCtx prev g = ⟨BadaCtx.zero, some ErrInvalidBadaCtx, prev, g⟩ := by
  cases prev with
  | none => rfl
  | some p => simp [ChainBadaCtx, hv]

theorem EmbedIntoContext_of_valid (b : Option BadaCtx) (ctx : Context)
    (hv : BadaCtx.IsValid b = true) :
    BadaCtx.EmbedIntoContext b ctx
      = (some (WithValue ctx ctxKeyBadaCtx (Any.badaCtxPtr b)), none) := by
  simp [BadaCtx.EmbedIntoContext, hv]

theorem EmbedIntoContext_of_invalid (b : Option BadaCtx) (ctx : Context)
    (hv : BadaCtx.IsValid b = false) :
    BadaCtx.EmbedIntoContext b ctx = (none, some ErrInvalidBadaCtx) := by
  simp [BadaCtx.EmbedIntoContext, hv]

theorem GetBadaCtx_WithValue (b : Option BadaCtx) (ctx : Context) :
    GetBadaCtx (WithValue ctx ctxKeyBadaCtx (Any.badaCtxPtr b)) = (b, BadaCtx.IsValid b) := by
  simp [GetBadaCtx, WithValue, Context.Value]

theorem derive_of_valid (h : Header) (g : IdGen)
    (hv : BadaCtx.IsValid (some (ExtractBadaCtxFromHeader h).1) = true) :
    WithBidTrace.derive h g
      = ⟨⟨(ExtractBadaCtxFromHeader h).1.CurrTid, g.NewObjectID.1.Hex,
          (ExtractBadaCtxFromHeader h).1.EntryTid⟩, g.NewObjectID.2, []⟩ := by
  have he : (ExtractBadaCtxFromHeader h).1.EntryTid ≠ "" := ((BadaCtx.IsValid_some _).1 hv).2
  simp [WithBidTrace.derive, he, ChainBadaCtx_of_valid _ g hv]

theorem derive_IsValid (h : Header) (g : IdGen) :
    BadaCtx.IsValid (some (WithBidTrace.derive h g).b) = true := by
  by_cases he : (ExtractBadaCtxFromHeader h).1.EntryTid = ""
  · simp only [WithBidTrace.derive, he, beq_self_eq_true, if_true]
    exact NewBadaCtx_IsValid g
  · cases hv : BadaCtx.IsValid (some (ExtractBadaCtxFromHeader h).1) with
    | true =>
      rw [derive_of_valid h g hv, BadaCtx.IsValid_some]
      exact ⟨ObjectID.Hex_ne_empty _, he⟩
    | false =>
      simp only [WithBidTrace.derive, he, beq_iff_eq, if_false,
        ChainBadaCtx_of_invalid _ g hv]
      exact NewBadaCtx_IsValid g

theorem WithBidTrace_ok (c : GinContext) (g : IdGen) :
    WithBidTrace c g
      = Except.ok ⟨⟨⟨c.Request.Header,
          WithValue c.Request.ctx ctxKeyBadaCtx
            (Any.badaCtxPtr (some (WithBidTrace.derive c.Request.Header g).b))⟩⟩,
          (WithBidTrace.derive c.Request.Header g).gen,
          (WithBidTrace.derive c.Request.Header g).log⟩ := by
  simp [WithBidTrace, EmbedIntoContext_of_valid _ _ (derive_IsValid c.Request.Header g),
    ExtractBadaCtxFromHeader]

theorem SetHeader_empty_of_valid (b : BadaCtx) (hv : BadaCtx.IsValid (some b) = true) :
    (ExtractBadaCtxFromHeader
      (((if b.PrevTid != "" then Header.empty.Set XPrevTid b.PrevTid else Header.empty).Set
        XEntryTid b.EntryTid).Set XCurrTid b.CurrTid)).1 = b := by
  obtain ⟨p, c, e⟩ := b
  by_cases hp : p = "" <;>
    simp [ExtractBadaCtxFromHeader, BadaCtx.zero, Header.Get, Header.Set, Header.empty, hp,
      XPrevTid, XCurrTid, XEntryTid]

/-! ## Claims -/

/-- Claim C1: for every pointer b, nil included, `IsValid` is true exactly
when b is non-nil and both `CurrTid` and `EntryTid` are non-empty; changing
`PrevTid` alone never changes the result. -/
theorem C1_IsValid_iff :
    (∀ b : Option BadaCtx, BadaCtx.IsValid b = true ↔
      b ≠ none ∧ ∃ v, b = some v ∧ v.CurrTid ≠ "" ∧ v.EntryTid ≠ "") ∧
    (∀ p q c e : String,
      BadaCtx.IsValid (some ⟨p, c, e⟩) = BadaCtx.IsValid (some ⟨q, c, e⟩)) := by
  refine ⟨?_, ?_⟩
  · intro b
    cases b with
    | none => simp [BadaCtx.IsValid]
    | some v => simp [BadaCtx.IsValid]
  · intro p q c e
    rfl

/-- Claim C2: `ChainBadaCtx` returns the error `ErrInvalidBadaCtx` exactly when
the parent is not valid, that is when the parent is nil or its `EntryTid` or
`CurrTid` is empty, and returns a nil error exactly when the parent is valid. -/
theorem C2_ChainBadaCtx_error_iff (prev : Option BadaCtx) (g : IdGen) :
    ((ChainBadaCtx prev g).err = some ErrInvalidBadaCtx ↔ BadaCtx.IsValid prev = false) ∧
    ((ChainBadaCtx prev g).err = none ↔ BadaCtx.IsValid prev = true) ∧
    (BadaCtx.IsValid prev = false ↔
      prev = none ∨ ∃ v, prev = some v ∧ (v.EntryTid = "" ∨ v.CurrTid = "")) := by
  cases hv : BadaCtx.IsValid prev with
  | true =>
    cases prev with
    | none => simp [BadaCtx.IsValid] at hv
    | some p =>
      have hp := (BadaCtx.IsValid_some p).1 hv
      simp [ChainBadaCtx_of_valid p g hv, hp.1, hp.2]
  | false =>
    rw [ChainBadaCtx_of_invalid prev g hv]
    cases prev with
    | none => simp
    | some p =>
      have hp : ¬ (p.CurrTid ≠ "" ∧ p.EntryTid ≠ "") := by
        rw [← BadaCtx.IsValid_some, hv]; simp
      simp only [not_and_or, not_not] at hp
      simp [hp.symm]

/-- Claim C3: for a valid parent, `ChainBadaCtx` succeeds with a context whose
`EntryTid` is the parent's `EntryTid`, whose `PrevTid` is the parent's
`CurrTid` and whose `CurrTid` is the identifier the generator produces at this
call (the only one it produces); the parent is unchanged. -/
theorem C3_ChainBadaCtx_fields (p : BadaCtx) (g : IdGen)
    (hv : BadaCtx.IsValid (some p) = true) :
    (ChainBadaCtx (some p) g).err = none ∧
    (ChainBadaCtx (some p) g).curr.EntryTid = p.EntryTid ∧
    (ChainBadaCtx (some p) g).curr.PrevTid = p.CurrTid ∧
    (ChainBadaCtx (some p) g).curr.CurrTid = g.NewObjectID.1.Hex ∧
    (ChainBadaCtx (some p) g).gen = g.NewObjectID.2 ∧
    (ChainBadaCtx (some p) g).prev = some p := by
  rw [ChainBadaCtx_of_valid p g hv]
  exact ⟨rfl, rfl, rfl, rfl, rfl, rfl⟩

/-- Witness of C3 at the sample origin context and the sample generator. -/
theorem C3_ChainBadaCtx_fields_witness :
    BadaCtx.IsValid (some sampleOrigin) = true ∧
    ((ChainBadaCtx (some sampleOrigin) sampleGen).err = none ∧
    (ChainBadaCtx (some sampleOrigin) sampleGen).curr.EntryTid = sampleOrigin.EntryTid ∧
    (ChainBadaCtx (some sampleOrigin) sampleGen).curr.PrevTid = sampleOrigin.CurrTid ∧
    (ChainBadaCtx (some sampleOrigin) sampleGen).curr.CurrTid = sampleGen.NewObjectID.1.Hex ∧
    (ChainBadaCtx (some sampleOrigin) sampleGen).gen = sampleGen.NewObjectID.2 ∧
    (ChainBadaCtx (some sampleOrigin) sampleGen).prev = some sampleOrigin) :=
  ⟨by decide, C3_ChainBadaCtx_fields sampleOrigin sampleGen (by decide)⟩

/-- Claim C4: `NewBadaCtx` yields a context whose `EntryTid` equals its
`CurrTid`, both being the one identifier the generator produces, and whose
`PrevTid` is empty. -/
theorem C4_NewBadaCtx_origin (g : IdGen) :
    (NewBadaCtx g).1.EntryTid = (NewBadaCtx g).1.CurrTid ∧
    (NewBadaCtx g).1.CurrTid = g.NewObjectID.1.Hex ∧
    (NewBadaCtx g).1.PrevTid = "" ∧
    (NewBadaCtx g).2 = g.NewObjectID.2 :=
  ⟨rfl, rfl, rfl, rfl⟩

theorem SetHeader_of_valid (b : BadaCtx) (h : Header) (hv : BadaCtx.IsValid (some b) = true) :
    BadaCtx.SetHeader (some b) h
      = Except.ok (((if b.PrevTid != "" then h.Set XPrevTid b.PrevTid else h).Set
          XEntryTid b.EntryTid).Set XCurrTid b.CurrTid, b) := by
  have he : b.EntryTid ≠ "" := ((BadaCtx.IsValid_some b).1 hv).2
  simp [BadaCtx.SetHeader, he]

theorem WithBidTrace_of_valid_header (h : Header) (ctx : Context) (g : IdGen)
    (hv : BadaCtx.IsValid (some (ExtractBadaCtxFromHeader h).1) = true) :
    WithBidTrace ⟨⟨h, ctx⟩⟩ g
      = Except.ok ⟨⟨⟨h, WithValue ctx ctxKeyBadaCtx (Any.badaCtxPtr (some
          ⟨(ExtractBadaCtxFromHeader h).1.CurrTid, g.NewObjectID.1.Hex,
            (ExtractBadaCtxFromHeader h).1.EntryTid⟩))⟩⟩, g.NewObjectID.2, []⟩ ∧
    GetBadaCtx (WithValue ctx ctxKeyBadaCtx (Any.badaCtxPtr (some
          ⟨(ExtractBadaCtxFromHeader h).1.CurrTid, g.NewObjectID.1.Hex,
            (ExtractBadaCtxFromHeader h).1.EntryTid⟩)))
      = (some ⟨(ExtractBadaCtxFromHeader h).1.CurrTid, g.NewObjectID.1.Hex,
            (ExtractBadaCtxFromHeader h).1.EntryTid⟩, true) := by
  have hd := derive_of_valid h g hv
  have hv2 := derive_IsValid h g
  rw [hd] at hv2
  refine ⟨?_, ?_⟩
  · rw [WithBidTrace_ok]
    simp only [hd]
  · rw [GetBadaCtx_WithValue, hv2]

/-- Claim C5: for a valid context b, `SetHeader` on the empty header set
succeeds, and `ExtractBadaCtxFromHeader` on the headers written returns b
itself, all three fields alike; an empty `PrevTid` comes back empty. -/
theorem C5_SetHeader_Extract_roundtrip (b : BadaCtx)
    (hv : BadaCtx.IsValid (some b) = true) :
    ∃ h : Header, BadaCtx.SetHeader (some b) Header.empty = Except.ok (h, b) ∧
      (ExtractBadaCtxFromHeader h).1 = b ∧
      (ExtractBadaCtxFromHeader h).1.CurrTid = b.CurrTid ∧
      (ExtractBadaCtxFromHeader h).1.PrevTid = b.PrevTid ∧
      (ExtractBadaCtxFromHeader h).1.EntryTid = b.EntryTid := by
  refine ⟨_, SetHeader_of_valid b Header.empty hv, ?_⟩
  have hb := SetHeader_empty_of_valid b hv
  exact ⟨hb, by rw [hb], by rw [hb], by rw [hb]⟩

/-- Witness of C5 at the sample origin context, whose `PrevTid` is empty. -/
theorem C5_SetHeader_Extract_roundtrip_witness :
    BadaCtx.IsValid (some sampleOrigin) = true ∧
    ∃ h : Header, BadaCtx.SetHeader (some sampleOrigin) Header.empty
        = Except.ok (h, sampleOrigin) ∧
      (ExtractBadaCtxFromHeader h).1 = sampleOrigin ∧
      (ExtractBadaCtxFromHeader h).1.CurrTid = sampleOrigin.CurrTid ∧
      (ExtractBadaCtxFromHeader h).1.PrevTid = sampleOrigin.PrevTid ∧
      (ExtractBadaCtxFromHeader h).1.EntryTid = sampleOrigin.EntryTid :=
  ⟨by decide, C5_SetHeader_Extract_roundtrip sampleOrigin (by decide)⟩

/-- Claim C6: for every inbound request, whatever its headers hold, the
context `WithBidTrace` computes is valid (the generated identifier is 24
hexadecimal digits, hence non-empty), its `EmbedIntoContext` call returns no
error, `WithBidTrace` reaches `c.Next()` without a panic, and `GetBadaCtx` on
the context of the resulting request returns the computed context and true. -/
theorem C6_WithBidTrace_binds_valid (c : GinContext) (g : IdGen) :
    BadaCtx.IsValid (some (WithBidTrace.derive c.Request.Header g).b) = true ∧
    (BadaCtx.EmbedIntoContext (some (WithBidTrace.derive c.Request.Header g).b)
      c.Request.ctx).2 = none ∧
    ∃ s : Served, WithBidTrace c g = Except.ok s ∧
      GetBadaCtx s.c.Request.ctx = (some (WithBidTrace.derive c.Request.Header g).b, true) := by
  have hv := derive_IsValid c.Request.Header g
  refine ⟨hv, ?_, _, WithBidTrace_ok c g, ?_⟩
  · rw [EmbedIntoContext_of_valid _ _ hv]
  · show GetBadaCtx (WithValue _ _ _) = _
    rw [GetBadaCtx_WithValue, hv]

/-- Claim C7: when a valid context b writes its headers onto the empty header
set and `WithBidTrace` serves a request carrying those headers, the context
bound to that request has the `EntryTid` of b and, as `PrevTid`, the `CurrTid`
of b. -/
theorem C7_lineage_one_hop (b : BadaCtx) (ctx : Context) (g : IdGen)
    (hv : BadaCtx.IsValid (some b) = true) :
    ∃ (h : Header) (s : Served) (bound : BadaCtx),
      BadaCtx.SetHeader (some b) Header.empty = Except.ok (h, b) ∧
      WithBidTrace ⟨⟨h, ctx⟩⟩ g = Except.ok s ∧
      GetBadaCtx s.c.Request.ctx = (some bound, true) ∧
      bound.EntryTid = b.EntryTid ∧ bound.PrevTid = b.CurrTid := by
  have hb := SetHeader_empty_of_valid b hv
  have hx := WithBidTrace_of_valid_header _ ctx g (by rw [hb]; exact hv)
  rw [hb] at hx
  exact ⟨_, _, _, SetHeader_of_valid b Header.empty hv, hx.1, hx.2, rfl, rfl⟩

/-- Witness of C7 at the sample chained context, the background carrier and
the sample generator. -/
theorem C7_lineage_one_hop_witness :
    BadaCtx.IsValid (some sampleHop) = true ∧
    ∃ (h : Header) (s : Served) (bound : BadaCtx),
      BadaCtx.SetHeader (some sampleHop) Header.empty = Except.ok (h, sampleHop) ∧
      WithBidTrace ⟨⟨h, Context.background⟩⟩ sampleGen = Except.ok s ∧
      GetBadaCtx s.c.Request.ctx = (some bound, true) ∧
      bound.EntryTid = sampleHop.EntryTid ∧ bound.PrevTid = sampleHop.CurrTid :=
  ⟨by decide, C7_lineage_one_hop sampleHop Context.background sampleGen (by decide)⟩

/-- Claim C8: `EmbedIntoContext` returns the error `ErrInvalidBadaCtx`,
together with a nil carrier, exactly when b is not valid, and returns a nil
error, together with a non-nil carrier, exactly when b is valid. -/
theorem C8_EmbedIntoContext_error_iff (b : Option BadaCtx) (ctx : Context) :
    ((BadaCtx.EmbedIntoContext b ctx).2 = some ErrInvalidBadaCtx ↔ BadaCtx.IsValid b = false) ∧
    (BadaCtx.EmbedIntoContext b ctx = (none, some ErrInvalidBadaCtx) ↔
      BadaCtx.IsValid b = false) ∧
    ((BadaCtx.EmbedIntoContext b ctx).2 = none ↔ BadaCtx.IsValid b = true) ∧
    ((BadaCtx.EmbedIntoContext b ctx).1 ≠ none ↔ BadaCtx.IsValid b = true) := by
  cases hv : BadaCtx.IsValid b with
  | true => simp [EmbedIntoContext_of_valid b ctx hv]
  | false => simp [EmbedIntoContext_of_invalid b ctx hv]

/-- Claim C9: for valid contexts b1 and b2 and every carrier c, whatever it
already binds, `GetBadaCtx` on the carrier returned by embedding b1 into c
returns b1 and true; embedding b2 into that carrier then makes `GetBadaCtx`
return b2 and true, not b1. -/
theorem C9_Embed_then_Get (b1 b2 : BadaCtx) (c : Context)
    (h1 : BadaCtx.IsValid (some b1) = true) (h2 : BadaCtx.IsValid (some b2) = true) :
    ∃ c1 c2 : Context,
      BadaCtx.EmbedIntoContext (some b1) c = (some c1, none) ∧
      GetBadaCtx c1 = (some b1, true) ∧
      BadaCtx.EmbedIntoContext (some b2) c1 = (some c2, none) ∧
      GetBadaCtx c2 = (some b2, true) := by
  refine ⟨_, _, EmbedIntoContext_of_valid _ c h1, ?_, EmbedIntoContext_of_valid _ _ h2, ?_⟩
  · rw [GetBadaCtx_WithValue, h1]
  · rw [GetBadaCtx_WithValue, h2]

/-- Witness of C9: the sample origin context is embedded first, the sample
chained context second, into a carrier that binds a foreign key. -/
theorem C9_Embed_then_Get_witness :
    (BadaCtx.IsValid (some sampleOrigin) = true ∧ BadaCtx.IsValid (some sampleHop) = true) ∧
    ∃ c1 c2 : Context,
      BadaCtx.EmbedIntoContext (some sampleOrigin)
        (WithValue Context.background (Key.foreign 1) (Any.foreign 2)) = (some c1, none) ∧
      GetBadaCtx c1 = (some sampleOrigin, true) ∧
      BadaCtx.EmbedIntoContext (some sampleHop) c1 = (some c2, none) ∧
      GetBadaCtx c2 = (some sampleHop, true) :=
  ⟨⟨by decide, by decide⟩,
   C9_Embed_then_Get sampleOrigin sampleHop
     (WithValue Context.background (Key.foreign 1) (Any.foreign 2)) (by decide) (by decide)⟩

/-- Claim C10: `GetBadaCtx` returns true exactly when the carrier binds a
non-nil `*BadaCtx` under the key and that context has a non-empty `CurrTid`
and `EntryTid`; it returns false exactly when the carrier binds no `*BadaCtx`
there, or binds the nil pointer, or binds a context whose `CurrTid` or
`EntryTid` is empty. -/
theorem C10_GetBadaCtx_ok_iff (ctx : Context) :
    ((GetBadaCtx ctx).2 = true ↔
      ∃ b : BadaCtx, ctx.Value ctxKeyBadaCtx = Any.badaCtxPtr (some b) ∧
        BadaCtx.IsValid (some b) = true ∧ b.CurrTid ≠ "" ∧ b.EntryTid ≠ "") ∧
    ((GetBadaCtx ctx).2 = false ↔
      (∀ p : Option BadaCtx, ctx.Value ctxKeyBadaCtx ≠ Any.badaCtxPtr p) ∨
      ctx.Value ctxKeyBadaCtx = Any.badaCtxPtr none ∨
      ∃ b : BadaCtx, ctx.Value ctxKeyBadaCtx = Any.badaCtxPtr (some b) ∧
        (b.CurrTid = "" ∨ b.EntryTid = "")) := by
  unfold GetBadaCtx
  cases hval : ctx.Value ctxKeyBadaCtx with
  | nil => simp
  | foreign t => simp
  | badaCtxPtr p =>
    cases p with
    | none => simp [BadaCtx.IsValid]
    | some b =>
      simp only [Bool.true_and, Any.badaCtxPtr.injEq, Option.some.injEq, exists_eq_left',
        ne_eq, forall_eq', not_true_eq_false, false_or, reduceCtorEq]
      constructor
      · constructor
        · intro h; exact ⟨h, (BadaCtx.IsValid_some b).1 h⟩
        · intro h; exact h.1
      · rw [← Bool.not_eq_true, BadaCtx.IsValid_some]
        simp only [not_and_or, not_not, ne_eq]

/-! ## Further auxiliary facts -/

theorem hexEncode_length (xs : List (Fin 256)) : (hexEncode xs).length = 2 * xs.length := by
  induction xs with
  | nil => rfl
  | cons v vs ih => simp only [hexEncode, List.length_cons, ih]; omega

theorem ObjectID.Hex_length (id : ObjectID) : id.Hex.length = 24 := by
  simp only [ObjectID.Hex, String.length, hexEncode_length, id.size]

theorem SetHeader_some (b : BadaCtx) (h : Header) :
    BadaCtx.SetHeader (some b) h
      = Except.ok (((if b.PrevTid != "" then h.Set XPrevTid b.PrevTid else h).Set XEntryTid
          (if b.EntryTid = "" then b.CurrTid else b.EntryTid)).Set XCurrTid b.CurrTid, b) := by
  by_cases he : b.EntryTid = "" <;> simp [BadaCtx.SetHeader, he]

theorem derive_of_no_entry (h : Header) (g : IdGen) (he : h.Get XEntryTid = "") :
    WithBidTrace.derive h g = ⟨(NewBadaCtx g).1, (NewBadaCtx g).2, []⟩ := by
  simp [WithBidTrace.derive, ExtractBadaCtxFromHeader, he]

theorem derive_of_no_curr (h : Header) (g : IdGen) (he : h.Get XEntryTid ≠ "")
    (hc : h.Get XCurrTid = "") :
    WithBidTrace.derive h g = ⟨(NewBadaCtx g).1, (NewBadaCtx g).2,
      ["Warning: previous badaCtx is invalid, both curr and entry id should be exist. Now using new badaCtx"]⟩ := by
  have hv : BadaCtx.IsValid (some (ExtractBadaCtxFromHeader h).1) = false := by
    simp [BadaCtx.IsValid, ExtractBadaCtxFromHeader, hc]
  have hx : (ExtractBadaCtxFromHeader h).1.EntryTid ≠ "" := he
  simp [WithBidTrace.derive, hx, ChainBadaCtx_of_invalid _ g hv]

theorem WithBidTrace_bound (h : Header) (ctx : Context) (g : IdGen) :
    WithBidTrace ⟨⟨h, ctx⟩⟩ g
      = Except.ok ⟨⟨⟨h, WithValue ctx ctxKeyBadaCtx
          (Any.badaCtxPtr (some (WithBidTrace.derive h g).b))⟩⟩,
          (WithBidTrace.derive h g).gen, (WithBidTrace.derive h g).log⟩ ∧
    GetBadaCtx (WithValue ctx ctxKeyBadaCtx (Any.badaCtxPtr (some (WithBidTrace.derive h g).b)))
      = (some (WithBidTrace.derive h g).b, true) :=
  ⟨WithBidTrace_ok ⟨⟨h, ctx⟩⟩ g, by rw [GetBadaCtx_WithValue, derive_IsValid]⟩

/-- Claim C11: `MustGetBadaCtx` panics exactly when `GetBadaCtx` returns
ok = false on the same carrier; exactly when `GetBadaCtx` returns ok = true
it returns the context `GetBadaCtx` returns, and that context is valid. -/
theorem C11_MustGetBadaCtx_iff (ctx : Context) :
    ((∃ p : Panic, MustGetBadaCtx ctx = Except.error p) ↔ (GetBadaCtx ctx).2 = false) ∧
    ((MustGetBadaCtx ctx = Except.ok (GetBadaCtx ctx).1 ∧
        BadaCtx.IsValid (GetBadaCtx ctx).1 = true) ↔ (GetBadaCtx ctx).2 = true) := by
  cases hok : (GetBadaCtx ctx).2 with
  | false => simp [MustGetBadaCtx, hok]
  | true =>
    have hv : BadaCtx.IsValid (GetBadaCtx ctx).1 = true := by
      have h2 := hok
      simp only [GetBadaCtx, Bool.and_eq_true] at h2
      exact h2.2
    simp [MustGetBadaCtx, hok, hv]

/-- Counterexample to C12 as stated: the sample origin context has an empty
`PrevTid`, yet after `SetHeader` on a header set that already carries the
previous-id header, reading X-Prev-Tid gives that earlier value, not the
empty string. -/
theorem C12_stale_PrevTid_counterexample :
    sampleOrigin.PrevTid = "" ∧
    ∃ h : Header, BadaCtx.SetHeader (some sampleOrigin) staleHeader
        = Except.ok (h, sampleOrigin) ∧
      h.Get XPrevTid = "stale" ∧ h.Get XPrevTid ≠ "" :=
  ⟨rfl, _, rfl, by decide, by decide⟩

/-- Claim C12, amended: for a non-nil context b with an empty `PrevTid` and
every header set h, `SetHeader` writes no X-Prev-Tid header: the entry of
X-Prev-Tid is after the call what it was before, so a header set that carried
none before carries none after and reads as the empty string exactly when it
did before. -/
theorem C12_SetHeader_no_PrevTid_written (b : BadaCtx) (h : Header)
    (hp : b.PrevTid = "") :
    ∃ h2 : Header, BadaCtx.SetHeader (some b) h = Except.ok (h2, b) ∧
      h2.entries XPrevTid = h.entries XPrevTid ∧
      h2.Get XPrevTid = h.Get XPrevTid ∧
      (h2.entries XPrevTid = none ↔ h.entries XPrevTid = none) := by
  refine ⟨_, SetHeader_some b h, ?_⟩
  have he : (((if b.PrevTid != "" then h.Set XPrevTid b.PrevTid else h).Set XEntryTid
      (if b.EntryTid = "" then b.CurrTid else b.EntryTid)).Set XCurrTid b.CurrTid).entries
        XPrevTid = h.entries XPrevTid := by
    simp [hp, Header.Set, XPrevTid, XCurrTid, XEntryTid]
  refine ⟨he, ?_, ?_⟩
  · simp only [Header.Get, he]
  · rw [he]

/-- Witness of the amended C12 at the sample origin context and the empty
header set. -/
theorem C12_SetHeader_no_PrevTid_written_witness :
    sampleOrigin.PrevTid = "" ∧
    ∃ h2 : Header, BadaCtx.SetHeader (some sampleOrigin) Header.empty
        = Except.ok (h2, sampleOrigin) ∧
      h2.entries XPrevTid = Header.empty.entries XPrevTid ∧
      h2.Get XPrevTid = Header.empty.Get XPrevTid ∧
      (h2.entries XPrevTid = none ↔ Header.empty.entries XPrevTid = none) :=
  ⟨rfl, C12_SetHeader_no_PrevTid_written sampleOrigin Header.empty rfl⟩

/-- Claim C13: for a non-nil context b and every header set h, after
`SetHeader` reading X-Curr-Tid gives `CurrTid`, reading X-Entry-Tid gives
`EntryTid` when that is non-empty and `CurrTid` otherwise, and when `PrevTid`
is non-empty reading X-Prev-Tid gives `PrevTid`. -/
theorem C13_SetHeader_written_values (b : BadaCtx) (h : Header) :
    ∃ h2 : Header, BadaCtx.SetHeader (some b) h = Except.ok (h2, b) ∧
      h2.Get XCurrTid = b.CurrTid ∧
      h2.Get XEntryTid = (if b.EntryTid = "" then b.CurrTid else b.EntryTid) ∧
      (b.EntryTid ≠ "" → h2.Get XEntryTid = b.EntryTid) ∧
      (b.EntryTid = "" → h2.Get XEntryTid = b.CurrTid) ∧
      (b.PrevTid ≠ "" → h2.Get XPrevTid = b.PrevTid) := by
  refine ⟨_, SetHeader_some b h, ?_, ?_, ?_, ?_, ?_⟩
  · simp [Header.Get, Header.Set]
  · simp [Header.Get, Header.Set, XCurrTid, XEntryTid]
  · intro he
    simp [Header.Get, Header.Set, XCurrTid, XEntryTid, he]
  · intro he
    simp [Header.Get, Header.Set, XCurrTid, XEntryTid, he]
  · intro hp
    simp [Header.Get, Header.Set, XCurrTid, XEntryTid, XPrevTid, hp]

/-- Claim C14: `ExtractBadaCtxFromHeader` returns a context for every header
set; each of `CurrTid`, `PrevTid` and `EntryTid` is the first value stored
under its own header name alone, the empty string when the header is absent
or holds no value; the header set is returned as it was. -/
theorem C14_Extract_reads_each_field (h : Header) :
    (ExtractBadaCtxFromHeader h).1.CurrTid
      = ((h.entries XCurrTid).bind List.head?).getD "" ∧
    (ExtractBadaCtxFromHeader h).1.PrevTid
      = ((h.entries XPrevTid).bind List.head?).getD "" ∧
    (ExtractBadaCtxFromHeader h).1.EntryTid
      = ((h.entries XEntryTid).bind List.head?).getD "" ∧
    (ExtractBadaCtxFromHeader h).2 = h := by
  have hget : ∀ k, h.Get k = ((h.entries k).bind List.head?).getD "" := by
    intro k
    unfold Header.Get
    cases hk : h.entries k with
    | none => rfl
    | some vs =>
      cases vs with
      | nil => rfl
      | cons v rest => rfl
  exact ⟨hget _, hget _, hget _, rfl⟩

/-- Counterexample to C15 as stated: a valid parent whose ids are the very
identifier the generator hands out next is chained to a context whose
`CurrTid` equals the parent's `CurrTid` and `EntryTid`. -/
theorem C15_collision_counterexample :
    BadaCtx.IsValid (some collidingParent) = true ∧
    (ChainBadaCtx (some collidingParent) sampleGen).err = none ∧
    (ChainBadaCtx (some collidingParent) sampleGen).curr.CurrTid = collidingParent.CurrTid ∧
    (ChainBadaCtx (some collidingParent) sampleGen).curr.CurrTid = collidingParent.EntryTid := by
  decide

/-- Claim C15, amended: for a valid parent the `CurrTid` of the chained context
is the identifier the generator produces at this call, a string of 24
characters. It is distinct from the parent's `EntryTid` exactly when that
`EntryTid` is not this identifier, and from the parent's `CurrTid` exactly
when that `CurrTid` is not this identifier; the same holds for the result's
own `EntryTid` and `PrevTid`. In particular it is distinct from every parent
id that is not 24 characters long. -/
theorem C15_ChainBadaCtx_distinct_iff (p : BadaCtx) (g : IdGen)
    (hv : BadaCtx.IsValid (some p) = true) :
    (ChainBadaCtx (some p) g).curr.CurrTid = g.NewObjectID.1.Hex ∧
    (ChainBadaCtx (some p) g).curr.CurrTid.length = 24 ∧
    ((ChainBadaCtx (some p) g).curr.CurrTid ≠ p.EntryTid ↔
      p.EntryTid ≠ g.NewObjectID.1.Hex) ∧
    ((ChainBadaCtx (some p) g).curr.CurrTid ≠ p.CurrTid ↔
      p.CurrTid ≠ g.NewObjectID.1.Hex) ∧
    ((ChainBadaCtx (some p) g).curr.CurrTid ≠ (ChainBadaCtx (some p) g).curr.EntryTid ↔
      p.EntryTid ≠ g.NewObjectID.1.Hex) ∧
    ((ChainBadaCtx (some p) g).curr.CurrTid ≠ (ChainBadaCtx (some p) g).curr.PrevTid ↔
      p.CurrTid ≠ g.NewObjectID.1.Hex) ∧
    (p.EntryTid.length ≠ 24 →
      (ChainBadaCtx (some p) g).curr.CurrTid ≠ p.EntryTid ∧
      (ChainBadaCtx (some p) g).curr.CurrTid ≠ (ChainBadaCtx (some p) g).curr.EntryTid) ∧
    (p.CurrTid.length ≠ 24 →
      (ChainBadaCtx (some p) g).curr.CurrTid ≠ p.CurrTid ∧
      (ChainBadaCtx (some p) g).curr.CurrTid ≠ (ChainBadaCtx (some p) g).curr.PrevTid) := by
  have short : ∀ s : String, s.length ≠ 24 → g.NewObjectID.1.Hex ≠ s := by
    intro s hs heq
    exact hs (heq ▸ ObjectID.Hex_length _)
  rw [ChainBadaCtx_of_valid p g hv]
  refine ⟨rfl, ObjectID.Hex_length _, ne_comm, ne_comm, ne_comm, ne_comm, ?_, ?_⟩
  · intro hs
    exact ⟨short _ hs, short _ hs⟩
  · intro hs
    exact ⟨short _ hs, short _ hs⟩

/-- Witness of the amended C15 at the parent with current and entry id A. -/
theorem C15_ChainBadaCtx_distinct_iff_witness :
    BadaCtx.IsValid (some parentAA) = true ∧
    ((ChainBadaCtx (some parentAA) sampleGen).curr.CurrTid = sampleGen.NewObjectID.1.Hex ∧
    (ChainBadaCtx (some parentAA) sampleGen).curr.CurrTid.length = 24 ∧
    ((ChainBadaCtx (some parentAA) sampleGen).curr.CurrTid ≠ parentAA.EntryTid ↔
      parentAA.EntryTid ≠ sampleGen.NewObjectID.1.Hex) ∧
    ((ChainBadaCtx (some parentAA) sampleGen).curr.CurrTid ≠ parentAA.CurrTid ↔
      parentAA.CurrTid ≠ sampleGen.NewObjectID.1.Hex) ∧
    ((ChainBadaCtx (some parentAA) sampleGen).curr.CurrTid
        ≠ (ChainBadaCtx (some parentAA) sampleGen).curr.EntryTid ↔
      parentAA.EntryTid ≠ sampleGen.NewObjectID.1.Hex) ∧
    ((ChainBadaCtx (some parentAA) sampleGen).curr.CurrTid
        ≠ (ChainBadaCtx (some parentAA) sampleGen).curr.PrevTid ↔
      parentAA.CurrTid ≠ sampleGen.NewObjectID.1.Hex) ∧
    (parentAA.EntryTid.length ≠ 24 →
      (ChainBadaCtx (some parentAA) sampleGen).curr.CurrTid ≠ parentAA.EntryTid ∧
      (ChainBadaCtx (some parentAA) sampleGen).curr.CurrTid
        ≠ (ChainBadaCtx (some parentAA) sampleGen).curr.EntryTid) ∧
    (parentAA.CurrTid.length ≠ 24 →
      (ChainBadaCtx (some parentAA) sampleGen).curr.CurrTid ≠ parentAA.CurrTid ∧
      (ChainBadaCtx (some parentAA) sampleGen).curr.CurrTid
        ≠ (ChainBadaCtx (some parentAA) sampleGen).curr.PrevTid)) :=
  ⟨by decide, C15_ChainBadaCtx_distinct_iff parentAA sampleGen (by decide)⟩

/-- Claim C16: when the inbound X-Entry-Tid value e and X-Curr-Tid value c are
both non-empty, `WithBidTrace` binds the context with `EntryTid` = e,
`PrevTid` = c and `CurrTid` = the identifier generated at this call, whatever
X-Prev-Tid holds: the inbound previous id is not used. -/
theorem C16_WithBidTrace_chains (h : Header) (ctx : Context) (g : IdGen)
    (he : h.Get XEntryTid ≠ "") (hc : h.Get XCurrTid ≠ "") :
    ∃ s : Served, WithBidTrace ⟨⟨h, ctx⟩⟩ g = Except.ok s ∧
      GetBadaCtx s.c.Request.ctx
        = (some ⟨h.Get XCurrTid, g.NewObjectID.1.Hex, h.Get XEntryTid⟩, true) ∧
      s.gen = g.NewObjectID.2 ∧ s.log = [] := by
  have hv : BadaCtx.IsValid (some (ExtractBadaCtxFromHeader h).1) = true := by
    rw [BadaCtx.IsValid_some]
    exact ⟨hc, he⟩
  have hx := WithBidTrace_of_valid_header h ctx g hv
  exact ⟨_, hx.1, hx.2, rfl, rfl⟩

/-- Witness of C16 at the inbound headers with current id A and entry id A and
no previous id: the bound context has `EntryTid` A and `PrevTid` A. -/
theorem C16_WithBidTrace_chains_witness :
    (headersAA.Get XEntryTid ≠ "" ∧ headersAA.Get XCurrTid ≠ "") ∧
    ∃ s : Served, WithBidTrace ⟨⟨headersAA, Context.background⟩⟩ sampleGen = Except.ok s ∧
      GetBadaCtx s.c.Request.ctx
        = (some ⟨headersAA.Get XCurrTid, sampleGen.NewObjectID.1.Hex,
            headersAA.Get XEntryTid⟩, true) ∧
      s.gen = sampleGen.NewObjectID.2 ∧ s.log = [] :=
  ⟨⟨by decide, by decide⟩,
   C16_WithBidTrace_chains headersAA Context.background sampleGen (by decide) (by decide)⟩

/-- Claim C17: when the inbound X-Entry-Tid is absent or empty, whatever
X-Curr-Tid and X-Prev-Tid hold, `WithBidTrace` binds an origin context:
`EntryTid` and `CurrTid` are the identifier generated at this call and
`PrevTid` is empty. No chaining takes place: the generator is called once and
nothing is logged. The bound context is made of the generated identifier
alone, no header value enters it. -/
theorem C17_WithBidTrace_origin_without_entry (h : Header) (ctx : Context) (g : IdGen)
    (he : h.Get XEntryTid = "") :
    ∃ s : Served, WithBidTrace ⟨⟨h, ctx⟩⟩ g = Except.ok s ∧
      GetBadaCtx s.c.Request.ctx
        = (some ⟨"", g.NewObjectID.1.Hex, g.NewObjectID.1.Hex⟩, true) ∧
      s.gen = g.NewObjectID.2 ∧ s.log = [] := by
  have hx := WithBidTrace_bound h ctx g
  rw [derive_of_no_entry h g he] at hx
  exact ⟨_, hx.1, hx.2, rfl, rfl⟩

/-- Witness of C17 at the inbound headers with current id A and empty previous
and entry ids. -/
theorem C17_WithBidTrace_origin_without_entry_witness :
    headersNoEntry.Get XEntryTid = "" ∧
    ∃ s : Served, WithBidTrace ⟨⟨headersNoEntry, Context.background⟩⟩ sampleGen = Except.ok s ∧
      GetBadaCtx s.c.Request.ctx
        = (some ⟨"", sampleGen.NewObjectID.1.Hex, sampleGen.NewObjectID.1.Hex⟩, true) ∧
      s.gen = sampleGen.NewObjectID.2 ∧ s.log = [] :=
  ⟨by decide,
   C17_WithBidTrace_origin_without_entry headersNoEntry Context.background sampleGen
     (by decide)⟩

/-- Claim C18: when the inbound X-Entry-Tid is non-empty and X-Curr-Tid is
absent or empty, chaining the extracted context fails with
`ErrInvalidBadaCtx`, and `WithBidTrace` binds an origin context instead:
`EntryTid` and `CurrTid` are the identifier generated at this call, `PrevTid`
is empty, the inbound entry and previous ids are not used; the request goes on
(no panic) and one warning is logged. -/
theorem C18_WithBidTrace_fallback_without_curr (h : Header) (ctx : Context) (g : IdGen)
    (he : h.Get XEntryTid ≠ "") (hc : h.Get XCurrTid = "") :
    (ChainBadaCtx (some (ExtractBadaCtxFromHeader h).1) g).err = some ErrInvalidBadaCtx ∧
    ∃ s : Served, WithBidTrace ⟨⟨h, ctx⟩⟩ g = Except.ok s ∧
      GetBadaCtx s.c.Request.ctx
        = (some ⟨"", g.NewObjectID.1.Hex, g.NewObjectID.1.Hex⟩, true) ∧
      s.gen = g.NewObjectID.2 ∧ s.log.length = 1 := by
  have hv : BadaCtx.IsValid (some (ExtractBadaCtxFromHeader h).1) = false := by
    simp [BadaCtx.IsValid, ExtractBadaCtxFromHeader, hc]
  have hx := WithBidTrace_bound h ctx g
  rw [derive_of_no_curr h g he hc] at hx
  refine ⟨?_, _, hx.1, hx.2, rfl, rfl⟩
  rw [ChainBadaCtx_of_invalid _ g hv]

/-- Witness of C18 at the inbound headers with empty current id, previous id P
and entry id E. -/
theorem C18_WithBidTrace_fallback_without_curr_witness :
    (headersNoCurr.Get XEntryTid ≠ "" ∧ headersNoCurr.Get XCurrTid = "") ∧
    ((ChainBadaCtx (some (ExtractBadaCtxFromHeader headersNoCurr).1) sampleGen).err
      = some ErrInvalidBadaCtx ∧
    ∃ s : Served, WithBidTrace ⟨⟨headersNoCurr, Context.background⟩⟩ sampleGen = Except.ok s ∧
      GetBadaCtx s.c.Request.ctx
        = (some ⟨"", sampleGen.NewObjectID.1.Hex, sampleGen.NewObjectID.1.Hex⟩, true) ∧
      s.gen = sampleGen.NewObjectID.2 ∧ s.log.length = 1) :=
  ⟨⟨by decide, by decide⟩,
   C18_WithBidTrace_fallback_without_curr headersNoCurr Context.background sampleGen
     (by decide) (by decide)⟩

/-- Claim C19: for a non-nil context b and every header set h, `SetHeader`
leaves the entry of every header name other than X-Curr-Tid, X-Prev-Tid and
X-Entry-Tid as it was, leaves the entry of X-Prev-Tid as it was, a value
already present included, when `PrevTid` is empty, and leaves b as it was. -/
theorem C19_SetHeader_frame (b : BadaCtx) (h : Header) :
    ∃ (h2 : Header) (b2 : BadaCtx), BadaCtx.SetHeader (some b) h = Except.ok (h2, b2) ∧
      b2 = b ∧
      (∀ k : String, k ≠ XCurrTid → k ≠ XPrevTid → k ≠ XEntryTid →
        h2.entries k = h.entries k) ∧
      (b.PrevTid = "" → h2.entries XPrevTid = h.entries XPrevTid) := by
  refine ⟨_, _, SetHeader_some b h, rfl, ?_, ?_⟩
  · intro k h1 h2 h3
    by_cases hp : b.PrevTid = "" <;> simp [Header.Set, h1, h2, h3, hp]
  · intro hp
    simp [hp, Header.Set, XPrevTid, XCurrTid, XEntryTid]

end GinTrace
